import Mathlib

/-
Verification development for the Sphero telemetry and movement scripts
(`working.py`, `sphero_move_and_collect_with_sensors.py`, `unlimited_move.py`).

Each section shallowly embeds one piece of the Python source:
pure computations become Lean functions, the thread loops become explicit
step functions or recursions over scripted outcomes (a `Bool` or `Except`
value standing for "did this external call succeed"), and Python
exceptions become `Except` values with `pyTry` embedding `try/except`.
-/

namespace Curiosity

/-! ## Telemetry sink (`working.py`: `sensor_callback` lines 106-113,
`data_writer_thread` lines 133-160).

`sensor_callback` appends one data row to `data_buffer` under
`buffer_lock`; each `data_writer_thread` iteration, when the buffer is
non-empty, copies then clears the buffer under the same lock and appends
the copy to the CSV file.  Because copy-and-clear happens atomically
under the lock, a whole flush is one step of the state machine below;
`storage` is the sequence of rows appended to the CSV file. -/

/-- One sample row as buffered by the sink; the element type is abstract. -/
inductive SinkOp (α : Type) : Type
  | append (s : α)
  | flush

/-- State shared between `sensor_callback` and `data_writer_thread`:
the in-memory `data_buffer` and the rows already written to the CSV file. -/
structure SinkState (α : Type) : Type where
  buffer : List α
  storage : List α

/-- One interleaving step: `sensor_callback`'s locked append
(`data_buffer.append(data_row)`), or one `data_writer_thread` flush
(`if len(data_buffer) > 0:` copy, clear, then `write_buffer_to_file`). -/
def sinkStep {α : Type} (st : SinkState α) : SinkOp α → SinkState α
  | .append s => { st with buffer := st.buffer ++ [s] }
  | .flush =>
      if st.buffer.isEmpty then st
      else { buffer := [], storage := st.storage ++ st.buffer }

/-- Run an interleaved sequence of appends and flushes from the empty state. -/
def sinkRun {α : Type} (ops : List (SinkOp α)) : SinkState α :=
  ops.foldl sinkStep ⟨[], []⟩

/-- The samples appended by a sequence of operations, in order. -/
def appendedSamples {α : Type} (ops : List (SinkOp α)) : List α :=
  ops.filterMap fun op =>
    match op with
    | .append s => some s
    | .flush => none

/-! ## Movement commands (`working.py` lines 195-202 and 217-225,
`unlimited_move.py` lines 62-64, `sphero_move_and_collect_with_sensors.py`
lines 331-333). -/

/-- `pysphero.driving.Direction` as used by the scripts. -/
inductive Direction : Type
  | forward
  | reverse
deriving DecidableEq

/-- A movement command as passed to `drive_with_heading(speed, heading, direction)`. -/
structure Command : Type where
  speed : Nat
  heading : Nat
  direction : Direction
deriving DecidableEq

/-- Python's `random.randint(a, b)`: a uniform draw from the inclusive
range `[a, b]`, modelled by reducing an arbitrary random value `r`. -/
def randint (a b r : Nat) : Nat :=
  a + r % (b + 1 - a)

/-- `MAX_SPEED` from `unlimited_move.py` and
`sphero_move_and_collect_with_sensors.py`. -/
def MAX_SPEED : Nat := 255

/-- The random command generated each iteration of
`continuous_random_movement_thread` in `working.py`:
`speed = random.randint(20, 80)`, `heading = random.randint(0, 359)`,
with a 5% chance (`rev`) of `Direction.reverse`. -/
def workingRandomCommand (r1 r2 : Nat) (rev : Bool) : Command :=
  { speed := randint 20 80 r1
    heading := randint 0 359 r2
    direction := if rev then .reverse else .forward }

/-- The random command generated by `run_continuous_movement` in
`unlimited_move.py` and by `movement_thread` in
`sphero_move_and_collect_with_sensors.py`:
`speed = random.randint(100, MAX_SPEED)`, `heading = random.randint(0, 359)`,
always `Direction.forward`. -/
def unlimitedRandomCommand (r1 r2 : Nat) : Command :=
  { speed := randint 100 MAX_SPEED r1
    heading := randint 0 359 r2
    direction := .forward }

/-- The conservative recovery command of `working.py` line 221:
`drive_with_heading(30, random.randint(0, 359), Direction.forward)`. -/
def recoveryCommand (r : Nat) : Command :=
  { speed := 30, heading := randint 0 359 r, direction := .forward }

/-! ## Python exceptions (`try/except`) as `Except`.

A call into the `pysphero` session is modelled by its outcome, a value of
`Except PyErr α`: `.ok` when the call returns, `.error` when it raises. -/

/-- A Python exception value (only its message matters to the scripts). -/
def PyErr : Type := String

/-- Embedding of `try: body except Exception: handler`. -/
def pyTry {α : Type} (body : Except PyErr α) (handler : PyErr → Except PyErr α) :
    Except PyErr α :=
  match body with
  | .ok a => .ok a
  | .error e => handler e

/-- A computation that did not raise. -/
def neverRaises {α : Type} (x : Except PyErr α) : Prop :=
  ∃ a, x = .ok a

/-- `execute_movement` from `working.py` lines 162-182: tries
`drive_with_heading`; on success resets `consecutive_movement_errors` to 0
and returns `True`; on any exception increments the counter and returns
`False`.  `drive` is the outcome of the `drive_with_heading` call and
`cme` the current `consecutive_movement_errors`; the result pairs the
returned boolean with the new counter. -/
def executeMovement (drive : Except PyErr Unit) (cme : Nat) :
    Except PyErr (Bool × Nat) :=
  pyTry (do let _ ← drive; pure (true, 0)) (fun _e => .ok (false, cme + 1))

/-- One body iteration of `movement_thread` in
`sphero_move_and_collect_with_sensors.py` lines 320-359: the
`drive_with_heading` call sits inside `try: ... except Exception as e:`
which logs and sleeps, so the iteration itself returns normally. -/
def movementThreadIter (drive : Except PyErr Unit) : Except PyErr Unit :=
  pyTry drive (fun _e => .ok ())

/-- The recovery block of `working.py` lines 219-225:
`try: drive_with_heading(30, ...); sleep(0.5); error_count = 0 except: pass`.
Takes the current `error_count` and the outcome of the recovery drive;
returns the new `error_count` (never raising). -/
def recoveryBlock (recDrive : Except PyErr Unit) (ec : Nat) : Except PyErr Nat :=
  pyTry (do let _ ← recDrive; pure 0) (fun _e => .ok ec)

/-- One iteration of the error-handling logic of
`continuous_random_movement_thread` in `working.py` lines 205-225, given
the current `error_count`, whether `execute_movement` succeeded (`cmdOk`),
and whether the recovery `drive_with_heading` would succeed (`recOk`).
Returns the new `error_count` and the number of recovery commands
attempted this iteration.  On success `error_count = 0`; on failure the
counter is incremented and, once it reaches `max_errors = 10`, the
recovery block runs (resetting the counter only when its drive call did
not raise, because `error_count = 0` is skipped by the `except: pass`). -/
def movementIter (ec : Nat) (cmdOk recOk : Bool) : Nat × Nat :=
  if cmdOk then (0, 0)
  else
    let ec2 := ec + 1
    if 10 ≤ ec2 then
      (match recoveryBlock (if recOk then .ok () else .error "ble fault") ec2 with
       | .ok n => n
       | .error _ => ec2,
       1)
    else (ec2, 0)

/-! ## Connection supervisor and health monitor
(`sphero_move_and_collect_with_sensors.py`, `run_sensor_and_movement`
lines 377-455).

The outer `while running and reconnect_count < max_reconnects:` loop is
embedded as a recursion over a script of connection attempts; each
attempt either raises (`Attempt.fail`, the `except` branch that
increments `reconnect_count`) or yields a session whose inner monitoring
loop consumes a list of battery-check outcomes (`Attempt.ok hs`).  The
script ending stands for the stop flag `running` having been cleared, so
the loop in question exits without a further attempt. -/

/-- `max_reconnects` in `run_sensor_and_movement`. -/
def max_reconnects : Nat := 10

/-- `max_errors` of the health-monitoring inner loop. -/
def max_errors : Nat := 5

/-- The fixed retry delay, in seconds: `time.sleep(5)` in
`run_sensor_and_movement` and `CONNECTION_RETRY_DELAY = 5` in
`unlimited_move.py`. -/
def CONNECTION_RETRY_DELAY : Nat := 5

/-- One health-monitor step (lines 417-428): a successful
`get_battery_voltage` resets `consecutive_errors` to 0; a failure
increments it, and once it reaches `max_errors` the loop breaks to
reconnect.  Returns the new counter and whether the break (teardown)
happens on this step. -/
def healthStep (c : Nat) (ok : Bool) : Nat × Bool :=
  if ok then (0, false)
  else (c + 1, decide (max_errors ≤ c + 1))

/-- The inner monitoring loop `while running:` of
`run_sensor_and_movement`, run over a list of battery-check outcomes.
Returns the final counter and whether the loop ended with the
teardown `break` (`true`) or by the stop flag clearing (`false`,
when the outcome list is exhausted). -/
def healthRun (c : Nat) : List Bool → Nat × Bool
  | [] => (c, false)
  | ok :: rest =>
      let s := healthStep c ok
      if s.2 then s else healthRun s.1 rest

/-- Observable events of the supervisor loop. -/
inductive SupEvent : Type
  | connect
  | sessionStart
  | teardown
  | delay (secs : Nat)
deriving DecidableEq

/-- One scripted connection attempt: either `Sphero(...)`/setup raises
(`fail`), or a session starts and its monitoring loop sees the given
battery-check outcomes (`ok`). -/
inductive Attempt : Type
  | fail
  | ok (hs : List Bool)

/-- The supervisor loop of `run_sensor_and_movement`, producing its
event trace.  Guard: `while running and reconnect_count < max_reconnects`.
A raising attempt increments `reconnect_count` and, `running` still being
set, sleeps 5 seconds before retrying.  A session whose monitor breaks
(teardown) leaves `reconnect_count` unchanged and also sleeps 5 seconds
before retrying.  A session ended by the stop flag falls through
`if running:` without sleeping and the loop exits. -/
def runSup (rc : Nat) : List Attempt → List SupEvent
  | [] => []
  | a :: rest =>
      if rc < max_reconnects then
        match a with
        | .fail => .connect :: .delay CONNECTION_RETRY_DELAY :: runSup (rc + 1) rest
        | .ok hs =>
            .connect :: .sessionStart ::
              (if (healthRun 0 hs).2 then
                .teardown :: .delay CONNECTION_RETRY_DELAY :: runSup rc rest
              else [])
      else []

/-- A health-outcome list that drives the monitor to its teardown break:
five consecutive battery-check failures. -/
def failStreak : List Bool := List.replicate max_errors false

/-! ## Cooperative stop flag (`working.py` `data_writer_thread` lines
133-147, `sphero_move_and_collect_with_sensors.py`
`backup_sensor_data_thread` lines 243-252).

The stop flag `running` is modelled as a function of discrete time
(one unit per one-second sleep); each loop is a recursion that reads the
flag exactly where the source reads `running`, with fuel bounding the
run length. -/

/-- The flag is set once and never unset: once `running` is `false` it
stays `false`. -/
def MonoFlag (flag : Nat → Bool) : Prop :=
  ∀ i j, i ≤ j → flag i = false → flag j = false

/-- `data_writer_thread`'s `while running:` loop: each iteration reads
the flag at its top, does one flush pass, sleeps one second, and
re-checks.  Returns the start times of the iterations that begin. -/
def writerIters (flag : Nat → Bool) : Nat → Nat → List Nat
  | 0, _ => []
  | fuel + 1, t => if flag t then t :: writerIters flag fuel (t + 1) else []

/-- The chunked 30-second sleep of `backup_sensor_data_thread`
(`for _ in range(30): if not running: break; time.sleep(1)` —
the flag is re-read before every one-second chunk): the number of
one-second chunks slept before the flag is observed clear, capped at
`n` (30 in the source). -/
def chunkWait (flag : Nat → Bool) : Nat → Nat → Nat
  | _, 0 => 0
  | t, n + 1 => if flag t then chunkWait flag (t + 1) n + 1 else 0

/-- `backup_sensor_data_thread`'s outer `while running:` loop: reads the
flag at the top, sleeps in 30 one-second chunks re-checking the flag
each chunk, re-checks (`if not running: break`), and only then copies
the buffer and writes the backup file.  Returns the times at which a
backup write happens. -/
def backupWrites (flag : Nat → Bool) : Nat → Nat → List Nat
  | 0, _ => []
  | fuel + 1, t =>
      if flag t then
        if chunkWait flag t 30 = 30 then
          if flag (t + 30) then (t + 30) :: backupWrites flag fuel (t + 30)
          else []
        else []
      else []

/-! ## Lock-held regions (`working.py` lines 107-113, 138-140, 154-156;
`sphero_move_and_collect_with_sensors.py` lines 149-164, 255-256).

Each `with buffer_lock:` / `with data_lock:` block of the two scripts is
listed as the sequence of operations performed while the lock is held. -/

/-- Operations that can occur inside a lock-held block of these scripts. -/
inductive LockedAction : Type
  | bufferAppend
  | bufferCopy
  | bufferClear
  | counterIncrement
  | consolePrint
  | csvRowWrite
  | csvFileFlush
deriving DecidableEq

/-- `working.py` `sensor_callback` lines 107-113 (`with buffer_lock:`):
append the row, increment `total_samples`, occasionally print. -/
def workingCallbackLocked : List LockedAction :=
  [.bufferAppend, .counterIncrement, .consolePrint]

/-- `working.py` `data_writer_thread` lines 138-140 (`with buffer_lock:`):
copy the buffer, clear it (the file write happens after release). -/
def workingWriterLocked : List LockedAction :=
  [.bufferCopy, .bufferClear]

/-- `working.py` `data_writer_thread` final-flush lines 154-156
(`with buffer_lock:`): copy and clear (write after release). -/
def workingFinalLocked : List LockedAction :=
  [.bufferCopy, .bufferClear]

/-- `sphero_move_and_collect_with_sensors.py` `sensor_callback` lines
149-164 (`with data_lock:`): append to `sensor_data`, write the row via
`csv_writer.writerow`, increment `data_points_counter`, flush `csv_file`
every fifth point, occasionally print — all while holding the lock. -/
def sensorsCallbackLocked : List LockedAction :=
  [.bufferAppend, .csvRowWrite, .counterIncrement, .csvFileFlush, .consolePrint]

/-- `sphero_move_and_collect_with_sensors.py` `backup_sensor_data_thread`
lines 255-256 (`with data_lock:`): copy the list (file writing happens
after release). -/
def sensorsBackupLocked : List LockedAction :=
  [.bufferCopy]

/-- Every lock-held region of the two scripts. -/
def allLockedRegions : List (List LockedAction) :=
  [workingCallbackLocked, workingWriterLocked, workingFinalLocked,
   sensorsCallbackLocked, sensorsBackupLocked]

/-- Whether a locked operation is a storage write or file flush. -/
def touchesStorage : LockedAction → Bool
  | .csvRowWrite => true
  | .csvFileFlush => true
  | _ => false

/-- A region holds the lock across no storage I/O. -/
def storageFree (r : List LockedAction) : Bool :=
  r.all fun a => !touchesStorage a

/-! ## Telemetry row extraction (`working.py` `sensor_callback` lines
66-113; the variant in `sphero_move_and_collect_with_sensors.py` lines
105-146 classifies the same six keys).

The `if/elif` chain matching `str(sensor_key)` against
`"Accelerometer.x"`, ..., `"Gyroscope.z"` is embedded by classifying
each payload key into one of the six channels or `other`; channel
values are rationals standing for the numeric payload values. -/

/-- Classification of one payload key by the `if/elif` chain. -/
inductive ChannelKey : Type
  | accelX
  | accelY
  | accelZ
  | gyroX
  | gyroY
  | gyroZ
  | other
deriving DecidableEq

/-- The six channel variables of `sensor_callback`, initialised to 0.0
(`accel_x = accel_y = accel_z = 0.0; gyro_x = gyro_y = gyro_z = 0.0`). -/
structure Channels : Type where
  ax : Rat
  ay : Rat
  az : Rat
  gx : Rat
  gy : Rat
  gz : Rat
deriving DecidableEq

/-- The default-initialised channel variables. -/
def channelsInit : Channels := ⟨0, 0, 0, 0, 0, 0⟩

/-- One pass of the `for sensor_key, value in response.items():` loop:
the matching channel variable is overwritten, unmatched keys leave all
six unchanged. -/
def updateChannel (c : Channels) (kv : ChannelKey × Rat) : Channels :=
  match kv.1 with
  | .accelX => { c with ax := kv.2 }
  | .accelY => { c with ay := kv.2 }
  | .accelZ => { c with az := kv.2 }
  | .gyroX => { c with gx := kv.2 }
  | .gyroY => { c with gy := kv.2 }
  | .gyroZ => { c with gz := kv.2 }
  | .other => c

/-- Project the channel variable a key writes to (`other` keys touch
nothing; the projection is only used for the six real channels). -/
def getChan : ChannelKey → Channels → Rat
  | .accelX, c => c.ax
  | .accelY, c => c.ay
  | .accelZ, c => c.az
  | .gyroX, c => c.gx
  | .gyroY, c => c.gy
  | .gyroZ, c => c.gz
  | .other, _ => 0

/-- The `data_row` built by `sensor_callback` from a payload: the
timestamp followed by the six channel values after the extraction loop. -/
def sensorRow (ts : Rat) (resp : List (ChannelKey × Rat)) : List Rat :=
  let c := resp.foldl updateChannel channelsInit
  [ts, c.ax, c.ay, c.az, c.gx, c.gy, c.gz]

/-- A concrete stop flag for evaluating the cooperative-shutdown loops:
set (cleared to `false`) from time 2 onwards. -/
def flagW : Nat → Bool := fun t => decide (t < 2)

/-! ## Theorems -/

/-- The flush step moves the whole buffer, in order, to the end of
storage and leaves the buffer empty. -/
theorem sinkStep_flush_spec {α : Type} (st : SinkState α) :
    (sinkStep st .flush).storage = st.storage ++ st.buffer ∧
      (sinkStep st .flush).buffer = [] := by
  cases hb : st.buffer with
  | nil => simp [sinkStep, hb]
  | cons x xs => simp [sinkStep, hb]

/-- Invariant of the sink state machine: storage followed by the
still-buffered samples is exactly the append history, in order. -/
theorem sink_foldl_invariant {α : Type} (ops : List (SinkOp α)) :
    ∀ st : SinkState α,
      (ops.foldl sinkStep st).storage ++ (ops.foldl sinkStep st).buffer =
        st.storage ++ st.buffer ++ appendedSamples ops := by
  induction ops with
  | nil => intro st; simp [appendedSamples]
  | cons op rest ih =>
      intro st
      cases op with
      | append s =>
          simp only [List.foldl_cons, sinkStep]
          rw [ih]
          simp [appendedSamples, List.append_assoc]
      | flush =>
          simp only [List.foldl_cons]
          rw [ih]
          have h := sinkStep_flush_spec st
          rw [h.1, h.2]
          simp [appendedSamples]

/-- Claim C1: for every interleaving of locked appends
(`sensor_callback`) and copy-then-clear flushes (`data_writer_thread`),
storage plus the remaining buffer is exactly the sequence of appended
samples in order — no sample duplicated, none lost — and after the final
shutdown flush the storage holds every appended sample exactly once, in
append order, with an empty buffer. -/
theorem C1_sink_exactly_once {α : Type} (ops : List (SinkOp α)) :
    (sinkRun ops).storage ++ (sinkRun ops).buffer = appendedSamples ops ∧
    (sinkRun (ops ++ [SinkOp.flush])).storage = appendedSamples ops ∧
    (sinkRun (ops ++ [SinkOp.flush])).buffer = [] := by
  have h1 : (sinkRun ops).storage ++ (sinkRun ops).buffer = appendedSamples ops := by
    have h := sink_foldl_invariant ops (⟨[], []⟩ : SinkState α)
    simpa [sinkRun] using h
  have hrun : sinkRun (ops ++ [SinkOp.flush]) = sinkStep (sinkRun ops) .flush := by
    simp [sinkRun, List.foldl_append]
  have hstep := sinkStep_flush_spec (sinkRun ops)
  refine ⟨h1, ?_, ?_⟩
  · rw [hrun, hstep.1, h1]
  · rw [hrun, hstep.2]

/-- `random.randint(a, b)` stays in the inclusive range `[a, b]`. -/
theorem randint_mem (a b r : Nat) (h : a ≤ b) :
    a ≤ randint a b r ∧ randint a b r ≤ b := by
  unfold randint
  have h1 : r % (b + 1 - a) < b + 1 - a := Nat.mod_lt _ (by omega)
  omega

/-- Claim C7: every randomly generated movement command has an integer
speed within the configured bounds (20-80 in `working.py`, 100-255 in
`unlimited_move.py` and the sensors script, both subranges of 0-255), a
heading in the normalized range 0-359, and a direction flag. -/
theorem C7_command_bounds (r1 r2 r3 r4 : Nat) (rev : Bool) :
    (20 ≤ (workingRandomCommand r1 r2 rev).speed ∧
      (workingRandomCommand r1 r2 rev).speed ≤ 80 ∧
      (workingRandomCommand r1 r2 rev).speed ≤ MAX_SPEED ∧
      (workingRandomCommand r1 r2 rev).heading ≤ 359 ∧
      (workingRandomCommand r1 r2 rev).direction =
        (if rev then Direction.reverse else Direction.forward)) ∧
    (100 ≤ (unlimitedRandomCommand r3 r4).speed ∧
      (unlimitedRandomCommand r3 r4).speed ≤ MAX_SPEED ∧
      (unlimitedRandomCommand r3 r4).heading ≤ 359) := by
  have hs1 := randint_mem 20 80 r1 (by omega)
  have hh1 := randint_mem 0 359 r2 (by omega)
  have hs2 := randint_mem 100 MAX_SPEED r3 (by simp [MAX_SPEED])
  have hh2 := randint_mem 0 359 r4 (by omega)
  refine ⟨⟨hs1.1, hs1.2, ?_, hh1.2, rfl⟩, hs2.1, hs2.2, hh2.2⟩
  simp only [MAX_SPEED, workingRandomCommand]
  omega

/-- Claim C8: a command-submission fault is never fatal — whatever the
outcome of the `drive_with_heading` call (including any raised
exception), `execute_movement`, the sensors script's movement-thread
iteration, and the recovery block all return normally, recording the
error instead of propagating it. -/
theorem C8_submission_faults_never_propagate :
    (∀ (drive : Except PyErr Unit) (cme : Nat),
        neverRaises (executeMovement drive cme)) ∧
    (∀ drive : Except PyErr Unit, movementThreadIter drive = .ok ()) ∧
    (∀ (recDrive : Except PyErr Unit) (ec : Nat),
        neverRaises (recoveryBlock recDrive ec)) := by
  refine ⟨?_, ?_, ?_⟩
  · intro d c
    cases d with
    | ok a => exact ⟨(true, 0), rfl⟩
    | error e => exact ⟨(false, c + 1), rfl⟩
  · intro d
    cases d with
    | ok a => rfl
    | error e => rfl
  · intro d ec
    cases d with
    | ok a => exact ⟨0, rfl⟩
    | error e => exact ⟨ec, rfl⟩

/-- Claim C2 counterexample: with `error_count` at 9 a failed command
submission reaches the threshold of 10 and exactly one recovery command
is attempted, but when the recovery drive itself raises, the
`except: pass` skips the `error_count = 0` line and the counter stays at
10 — it is not reset to zero regardless of the recovery outcome. -/
theorem C2_counterexample :
    (movementIter 9 false false).2 = 1 ∧ (movementIter 9 false false).1 = 10 ∧
      (movementIter 9 false false).1 ≠ 0 := by
  refine ⟨rfl, rfl, by decide⟩

/-- Claim C2 (amended): each failed command submission increments the
consecutive-error counter and a success resets it to zero; when the
counter reaches the threshold of 10, exactly one conservative low-speed
(speed 30) recovery command is attempted, and the counter is reset to
zero only if that recovery command succeeds — if it fails, the counter
keeps its incremented value. -/
theorem C2_amended (ec : Nat) (recOk : Bool) (r : Nat) :
    movementIter ec true recOk = (0, 0) ∧
    (ec + 1 < 10 → movementIter ec false recOk = (ec + 1, 0)) ∧
    (10 ≤ ec + 1 →
      (movementIter ec false recOk).2 = 1 ∧
      (movementIter ec false recOk).1 = (if recOk then 0 else ec + 1)) ∧
    ((recoveryCommand r).speed = 30 ∧ (recoveryCommand r).heading ≤ 359) := by
  refine ⟨rfl, ?_, ?_, rfl, (randint_mem 0 359 r (by omega)).2⟩
  · intro h
    simp [movementIter, Nat.not_le.mpr h]
  · intro h
    cases recOk with
    | true => simp [movementIter, h, recoveryBlock, pyTry]
    | false => simp [movementIter, h, recoveryBlock, pyTry]

/-- Evaluation of the amended C2 at concrete inputs: a success resets
the counter; a failure below the threshold increments it without
recovery; at the threshold exactly one recovery is attempted, resetting
the counter when the recovery succeeds and keeping it at 10 when it
fails; the recovery command drives at speed 30. -/
theorem C2_amended_witness :
    movementIter 9 true true = (0, 0) ∧
    movementIter 3 false true = (4, 0) ∧
    ((movementIter 9 false true).2 = 1 ∧ (movementIter 9 false true).1 = 0) ∧
    ((movementIter 9 false false).2 = 1 ∧ (movementIter 9 false false).1 = 10) ∧
    (recoveryCommand 7).speed = 30 := by
  refine ⟨(C2_amended 9 true 0).1, (C2_amended 3 true 0).2.1 (by decide), ?_, ?_, ?_⟩
  · have h := (C2_amended 9 true 0).2.2.1 (by decide)
    simpa using h
  · have h := (C2_amended 9 false 0).2.2.1 (by decide)
    simpa using h
  · exact (C2_amended 0 true 7).2.2.2.1

/-- Unfolding of the supervisor loop on a raising connection attempt:
the reconnect counter is incremented and a 5-second delayed retry
follows. -/
theorem runSup_fail_step (rc : Nat) (rest : List Attempt) (hrc : rc < max_reconnects) :
    runSup rc (Attempt.fail :: rest) =
      .connect :: .delay CONNECTION_RETRY_DELAY :: runSup (rc + 1) rest := by
  simp [runSup, hrc]

/-- Unfolding of the supervisor loop on a session torn down by the
health monitor: the reconnect counter is left unchanged and a 5-second
delayed retry follows. -/
theorem runSup_teardown_step (rc : Nat) (hs : List Bool) (rest : List Attempt)
    (hrc : rc < max_reconnects) (ht : (healthRun 0 hs).2 = true) :
    runSup rc (Attempt.ok hs :: rest) =
      .connect :: .sessionStart :: .teardown :: .delay CONNECTION_RETRY_DELAY ::
        runSup rc rest := by
  simp [runSup, hrc, ht]

/-- Five consecutive battery-check failures drive the health monitor to
its teardown break. -/
theorem healthRun_failStreak : (healthRun 0 failStreak).2 = true := by decide

/-- Connection-failure retries are counted: a script of `n` raising
attempts yields `min n (max_reconnects - rc)` connection attempts. -/
theorem runSup_count_connect_fail (n : Nat) :
    ∀ rc : Nat,
      (runSup rc (List.replicate n Attempt.fail)).count SupEvent.connect =
        min n (max_reconnects - rc) := by
  induction n with
  | zero => intro rc; simp [runSup]
  | succ n ih =>
      intro rc
      by_cases hrc : rc < max_reconnects
      · rw [List.replicate_succ, runSup_fail_step rc _ hrc]
        simp only [List.count_cons, ih (rc + 1), beq_iff_eq]
        have h1 : (if SupEvent.delay CONNECTION_RETRY_DELAY = SupEvent.connect
            then (1 : Nat) else 0) = 0 := by decide
        rw [h1]
        simp only [if_true, Nat.add_zero]
        simp only [max_reconnects] at hrc ⊢
        omega
      · rw [List.replicate_succ]
        simp only [runSup, if_neg hrc, List.count_nil]
        simp only [max_reconnects] at hrc ⊢
        omega

/-- Health-triggered teardowns are not counted: a script of `n` sessions
each torn down by the health monitor starts all `n` sessions, the
reconnect counter never moving. -/
theorem runSup_count_sessions_teardown (n : Nat) :
    (runSup 0 (List.replicate n (Attempt.ok failStreak))).count
        SupEvent.sessionStart = n := by
  induction n with
  | zero => rfl
  | succ n ih =>
      rw [List.replicate_succ,
        runSup_teardown_step 0 failStreak _ (by decide) healthRun_failStreak]
      simp [List.count_cons, ih, beq_iff_eq]

/-- Claim C3: in the health-monitor loop a successful battery query
resets the consecutive-failure counter to zero, a failed query
increments it by one, the teardown break fires exactly when the counter
reaches the threshold `max_errors = 5`, and a session torn down this way
is followed by exactly one delayed reconnect attempt before the next
session (normal operation) starts. -/
theorem C3_health_monitor (c rc : Nat) (hs hs2 : List Bool) (rest : List Attempt)
    (hrc : rc < max_reconnects) (ht : (healthRun 0 hs).2 = true) :
    healthStep c true = (0, false) ∧
    (healthStep c false).1 = c + 1 ∧
    ((healthStep c false).2 = true ↔ max_errors ≤ c + 1) ∧
    (runSup rc (Attempt.ok hs :: Attempt.ok hs2 :: rest)).take 6 =
      [SupEvent.connect, .sessionStart, .teardown, .delay CONNECTION_RETRY_DELAY,
        .connect, .sessionStart] := by
  refine ⟨rfl, rfl, by simp [healthStep], ?_⟩
  rw [runSup_teardown_step rc hs _ hrc ht]
  have h2 : runSup rc (Attempt.ok hs2 :: rest) =
      .connect :: .sessionStart ::
        (if (healthRun 0 hs2).2 then
          .teardown :: .delay CONNECTION_RETRY_DELAY :: runSup rc rest
        else []) := by
    simp [runSup, hrc]
  rw [h2]
  rfl

/-- Evaluation of C3 at concrete inputs: counter dynamics at counter
3, and the trace of a five-failure teardown followed by a healthy
session shows exactly one reconnect attempt in between. -/
theorem C3_health_monitor_witness :
    healthStep 3 true = (0, false) ∧
    (healthStep 3 false).1 = 4 ∧
    ((healthStep 3 false).2 = true ↔ max_errors ≤ 4) ∧
    (runSup 0 [Attempt.ok failStreak, Attempt.ok []]).take 6 =
      [SupEvent.connect, .sessionStart, .teardown, .delay CONNECTION_RETRY_DELAY,
        .connect, .sessionStart] :=
  C3_health_monitor 3 0 failStreak [] [] (by decide) (by decide)

/-- Claim C4 counterexample: eleven sessions each torn down by
health-check failure streaks produce eleven delayed retries even though
the configured maximum retry count `max_reconnects` is 10, because
teardown retries never increment the reconnect counter — so the number
of retries of the supervisor loop is not bounded by the maximum retry
count. -/
theorem C4_counterexample :
    (runSup 0 (List.replicate 11 (Attempt.ok failStreak))).count
        (SupEvent.delay CONNECTION_RETRY_DELAY) = 11 ∧
    max_reconnects = 10 := by
  refine ⟨?_, rfl⟩
  rfl

/-- Claim C4 (amended): the supervisor repeatedly attempts to establish
a session, waiting the fixed 5-second delay after every failed attempt
or torn-down session; the number of retries following a *failed
connection attempt* is bounded by the maximum retry count (teardown
retries are not counted against it); when the stop flag is observed
between attempts the loop exits without a further attempt; and a session
that fails its first two connection attempts and then succeeds produces
exactly two delayed retries before the session starts. -/
theorem C4_amended (hs : List Bool) (n rc : Nat) :
    (runSup 0 [Attempt.fail, Attempt.fail, Attempt.ok hs]).take 6 =
      [SupEvent.connect, .delay CONNECTION_RETRY_DELAY, .connect,
        .delay CONNECTION_RETRY_DELAY, .connect, .sessionStart] ∧
    (runSup rc (List.replicate n Attempt.fail)).count SupEvent.connect =
      min n (max_reconnects - rc) ∧
    runSup rc [] = [] := by
  refine ⟨?_, runSup_count_connect_fail n rc, rfl⟩
  rw [runSup_fail_step 0 _ (by decide), runSup_fail_step 1 _ (by decide)]
  have h2 : runSup 2 [Attempt.ok hs] =
      .connect :: .sessionStart ::
        (if (healthRun 0 hs).2 then
          .teardown :: .delay CONNECTION_RETRY_DELAY :: runSup 2 []
        else []) := by
    simp [runSup, max_reconnects]
  rw [h2]
  rfl

/-- Claim C10: the reconnect counter compared against `max_reconnects`
is incremented only by a raising connection attempt; a teardown
triggered by the health-check failure threshold recurses with the
counter unchanged, and consequently any number of health-triggered
reconnects — here `n`, in particular values beyond `max_reconnects` —
all start sessions. -/
theorem C10_reconnect_counter (rc n : Nat) (hs : List Bool) (rest : List Attempt)
    (hrc : rc < max_reconnects) (ht : (healthRun 0 hs).2 = true) :
    runSup rc (Attempt.fail :: rest) =
      .connect :: .delay CONNECTION_RETRY_DELAY :: runSup (rc + 1) rest ∧
    runSup rc (Attempt.ok hs :: rest) =
      .connect :: .sessionStart :: .teardown :: .delay CONNECTION_RETRY_DELAY ::
        runSup rc rest ∧
    (runSup 0 (List.replicate n (Attempt.ok failStreak))).count
        SupEvent.sessionStart = n :=
  ⟨runSup_fail_step rc rest hrc, runSup_teardown_step rc hs rest hrc ht,
    runSup_count_sessions_teardown n⟩

/-- Evaluation of C10 at concrete inputs: one raising attempt moves the
counter, one torn-down session does not, and twelve torn-down sessions
(more than `max_reconnects`) all start. -/
theorem C10_reconnect_counter_witness :
    runSup 0 [Attempt.fail] = [SupEvent.connect, .delay CONNECTION_RETRY_DELAY] ∧
    runSup 0 [Attempt.ok failStreak] =
      [SupEvent.connect, .sessionStart, .teardown, .delay CONNECTION_RETRY_DELAY] ∧
    (runSup 0 (List.replicate 12 (Attempt.ok failStreak))).count
        SupEvent.sessionStart = 12 :=
  C10_reconnect_counter 0 12 failStreak [] (by decide) (by decide)

/-- During the chunked backup sleep, the loop observes a cleared flag
within one chunk of it clearing: if the flag is false at the `i`-th
chunk check, at most `i` chunks are slept. -/
theorem chunkWait_le (flag : Nat → Bool) :
    ∀ (n t i : Nat), flag (t + i) = false → chunkWait flag t n ≤ i := by
  intro n
  induction n with
  | zero => intro t i _; exact Nat.zero_le i
  | succ n ih =>
      intro t i hi
      by_cases hf : flag t = true
      · cases i with
        | zero =>
            rw [Nat.add_zero] at hi
            rw [hf] at hi
            exact absurd hi (by simp)
        | succ i0 =>
            have hstep : flag ((t + 1) + i0) = false := by
              have harith : (t + 1) + i0 = t + (i0 + 1) := by omega
              rw [harith]
              exact hi
            have h := ih (t + 1) i0 hstep
            simp only [chunkWait, hf, if_true]
            omega
      · have hf2 : flag t = false := by
          cases h : flag t with
          | true => exact absurd h hf
          | false => rfl
        simp [chunkWait, hf2]

/-- Iterations of the writer loop begin only at times where the flag was
read as set. -/
theorem writerIters_flag_true (flag : Nat → Bool) :
    ∀ (fuel t u : Nat), u ∈ writerIters flag fuel t → flag u = true := by
  intro fuel
  induction fuel with
  | zero => intro t u h; simp [writerIters] at h
  | succ fuel ih =>
      intro t u h
      by_cases hf : flag t = true
      · simp only [writerIters, hf, if_true, List.mem_cons] at h
        cases h with
        | inl h2 => rw [h2]; exact hf
        | inr h2 => exact ih (t + 1) u h2
      · simp [writerIters, hf] at h

/-- Claim C6: the stop flag is read at the top of the writer loop, at
the top of the backup loop, and before every one-second chunk of the
backup sleep; hence once the flag is cleared (at time `s`, never to be
re-set), no writer iteration and no backup write begins at or after `s`
— every iteration that does begin is strictly before `s` — and the
chunked sleep observes the cleared flag within `s - t` chunks of its
start `t ≤ s`, so each task exits within one iteration interval. -/
theorem C6_stop_flag (flag : Nat → Bool) (fuel s t : Nat)
    (hm : MonoFlag flag) (hs : flag s = false) :
    (s ≤ t → writerIters flag fuel t = [] ∧ backupWrites flag fuel t = []) ∧
    (t ≤ s → chunkWait flag t 30 ≤ s - t) ∧
    (∀ u, u ∈ writerIters flag fuel t → u < s) := by
  refine ⟨?_, ?_, ?_⟩
  · intro hle
    have hft : flag t = false := hm s t hle hs
    constructor
    · cases fuel with
      | zero => rfl
      | succ fuel => simp [writerIters, hft]
    · cases fuel with
      | zero => rfl
      | succ fuel => simp [backupWrites, hft]
  · intro hle
    have hlast : flag (t + (s - t)) = false := by
      have harith : t + (s - t) = s := by omega
      rw [harith]; exact hs
    exact chunkWait_le flag 30 t (s - t) hlast
  · intro u hu
    have hut : flag u = true := writerIters_flag_true flag fuel t u hu
    by_contra hlt
    have hsu : s ≤ u := by omega
    have hfu : flag u = false := hm s u hsu hs
    rw [hut] at hfu
    exact absurd hfu (by simp)

/-- Evaluation of C6 at a concrete flag cleared from time 2 onwards:
starting the loops at time 2 begins no iteration and writes no backup,
and a chunked sleep started at time 0 sleeps at most 2 of its 30
chunks. -/
theorem C6_stop_flag_witness :
    (writerIters flagW 5 2 = [] ∧ backupWrites flagW 5 2 = []) ∧
    chunkWait flagW 0 30 ≤ 2 - 0 := by
  have hm : MonoFlag flagW := by
    intro i j hij hfi
    simp only [flagW, decide_eq_false_iff_not] at hfi ⊢
    omega
  have h := C6_stop_flag flagW 5 2 2 hm (by decide)
  have h2 := C6_stop_flag flagW 5 2 0 hm (by decide)
  exact ⟨h.1 (Nat.le_refl 2), h2.2.1 (by decide)⟩

/-- Claim C5 counterexample: the sensor callback of
`sphero_move_and_collect_with_sensors.py` is a lock-acquiring code path
in which a storage write (`csv_writer.writerow`) and a file flush
(`csv_file.flush()`) occur while the lock is held, refuting "in every
code path that acquires the lock, no storage write or file flush occurs
while the lock is held". -/
theorem C5_counterexample :
    sensorsCallbackLocked ∈ allLockedRegions ∧
    LockedAction.csvRowWrite ∈ sensorsCallbackLocked ∧
    LockedAction.csvFileFlush ∈ sensorsCallbackLocked ∧
    touchesStorage LockedAction.csvRowWrite = true ∧
    storageFree sensorsCallbackLocked = false := by
  decide

/-- Claim C5 (amended): the lock is held only for the copy, append or
clear operation — never across a storage write or file flush — in
`working.py`'s sensor callback, writer flush and final flush, and in the
backup thread's copy; but the sensors script's sensor callback writes
the CSV row and periodically flushes the file while holding the lock. -/
theorem C5_amended :
    storageFree workingCallbackLocked = true ∧
    storageFree workingWriterLocked = true ∧
    storageFree workingFinalLocked = true ∧
    storageFree sensorsBackupLocked = true ∧
    storageFree sensorsCallbackLocked = false := by
  decide

/-- A channel key that never occurs in the payload leaves its channel
variable untouched by the extraction loop. -/
theorem getChan_foldl_absent (k : ChannelKey) (resp : List (ChannelKey × Rat)) :
    ∀ c : Channels, k ∉ resp.map Prod.fst →
      getChan k (resp.foldl updateChannel c) = getChan k c := by
  induction resp with
  | nil => intro c _; rfl
  | cons kv rest ih =>
      intro c hk
      simp only [List.map_cons, List.mem_cons, not_or] at hk
      obtain ⟨k0, v⟩ := kv
      have hne : k0 ≠ k := fun h => hk.1 h.symm
      have hupd : getChan k (updateChannel c (k0, v)) = getChan k c := by
        cases k0 <;> cases k <;> simp_all [updateChannel, getChan]
      simp only [List.foldl_cons]
      rw [ih _ hk.2, hupd]

/-- Claim C9: every row built by the sensor callback has exactly seven
fields — the timestamp followed by the six channel values — and each of
the six channels absent from the payload mapping keeps its default value
0.0, even for an empty payload. -/
theorem C9_default_channels (ts : Rat) (resp : List (ChannelKey × Rat)) :
    (sensorRow ts resp).length = 7 ∧
    (sensorRow ts resp).head? = some ts ∧
    (ChannelKey.accelX ∉ resp.map Prod.fst → (sensorRow ts resp).get? 1 = some 0) ∧
    (ChannelKey.accelY ∉ resp.map Prod.fst → (sensorRow ts resp).get? 2 = some 0) ∧
    (ChannelKey.accelZ ∉ resp.map Prod.fst → (sensorRow ts resp).get? 3 = some 0) ∧
    (ChannelKey.gyroX ∉ resp.map Prod.fst → (sensorRow ts resp).get? 4 = some 0) ∧
    (ChannelKey.gyroY ∉ resp.map Prod.fst → (sensorRow ts resp).get? 5 = some 0) ∧
    (ChannelKey.gyroZ ∉ resp.map Prod.fst → (sensorRow ts resp).get? 6 = some 0) := by
  refine ⟨rfl, rfl, ?_, ?_, ?_, ?_, ?_, ?_⟩ <;> intro h
  · simpa [sensorRow, getChan, channelsInit] using
      getChan_foldl_absent ChannelKey.accelX resp channelsInit h
  · simpa [sensorRow, getChan, channelsInit] using
      getChan_foldl_absent ChannelKey.accelY resp channelsInit h
  · simpa [sensorRow, getChan, channelsInit] using
      getChan_foldl_absent ChannelKey.accelZ resp channelsInit h
  · simpa [sensorRow, getChan, channelsInit] using
      getChan_foldl_absent ChannelKey.gyroX resp channelsInit h
  · simpa [sensorRow, getChan, channelsInit] using
      getChan_foldl_absent ChannelKey.gyroY resp channelsInit h
  · simpa [sensorRow, getChan, channelsInit] using
      getChan_foldl_absent ChannelKey.gyroZ resp channelsInit h

/-- Evaluation of C9 at the empty payload: the row is the timestamp
followed by six default zeros. -/
theorem C9_default_channels_witness :
    sensorRow 0 [] = [0, 0, 0, 0, 0, 0, 0] ∧
    (sensorRow 0 []).get? 1 = some 0 ∧
    (sensorRow 0 []).get? 2 = some 0 ∧
    (sensorRow 0 []).get? 3 = some 0 ∧
    (sensorRow 0 []).get? 4 = some 0 ∧
    (sensorRow 0 []).get? 5 = some 0 ∧
    (sensorRow 0 []).get? 6 = some 0 := by
  have h := C9_default_channels 0 []
  exact ⟨rfl, h.2.2.1 (by simp), h.2.2.2.1 (by simp), h.2.2.2.2.1 (by simp),
    h.2.2.2.2.2.1 (by simp), h.2.2.2.2.2.2.1 (by simp), h.2.2.2.2.2.2.2 (by simp)⟩

end Curiosity
